import Mathlib

/-!
Verification of the RAG demo pipeline (`main.go`, function `runRAGDemo`).

The program is a linear orchestration of six calls to an external service:
create vector store, upload file, attach file to store, search, list models,
chat completion.  We embed it as a pure function of an environment that
supplies the response of each external call (the mock of the service
boundary).  The result records the outbound calls in order, the console
print events in order, and the returned error (if any).

Floating-point relevance scores are only ever printed (never computed with),
so a search result carries its score already rendered as the string that the
`%.4f` format verb would produce; nothing in the pipeline inspects it.
-/

/-- A vector store handle as returned by the store-create call
(`client.VectorStores.New`): server-assigned id and display name. -/
structure VectorStore where
  id : String
  name : String
deriving DecidableEq

/-- An uploaded-file handle as returned by the file-upload call
(`client.Files.New`): server-assigned id and filename. -/
structure UploadedFile where
  id : String
  filename : String
deriving DecidableEq

/-- One search result: its text content and its relevance score, the latter
kept as the `%.4f`-rendered string since the program only prints it. -/
structure SearchResult where
  content : String
  score : String
deriving DecidableEq

/-- A model descriptor from the list-models call: identifier and model type
(the program compares the type against the literal "llm"). -/
structure ModelDescriptor where
  identifier : String
  modelType : String
deriving DecidableEq

/-- One chat-completion choice.  `assistantContent` is the value of
`message.AsAssistant().Content.OfString` in the Go code: the assistant-role
string content, or the empty string when the message is not assistant-role
or its content is not a plain string. -/
structure ChatChoice where
  assistantContent : String
deriving DecidableEq

/-- A chat-completion response.  `choices` is `none` when
`response.AsOpenAIChatCompletion().Choices` is the nil slice (a non-OpenAI
variant), `some cs` otherwise. -/
structure ChatResponse where
  choices : Option (List ChatChoice)
deriving DecidableEq

/-- An outbound request to the external service, with the payload fields the
program fills in. -/
inductive Call where
  | storeCreate (name : String)
  | fileUpload (content filename mime purpose : String)
  | attachFile (storeId fileId : String)
  | search (storeId query : String) (maxNumResults : Nat)
  | listModels
  | chatCompletion (systemMsg userMsg model : String) (maxTokens : Nat)
deriving DecidableEq

/-- The service boundary: the response each external call would receive,
either a value or the message of the underlying transport/service error. -/
structure Env where
  storeCreateResp : Except String VectorStore
  fileUploadResp : Except String UploadedFile
  attachResp : Except String Unit
  searchResp : Except String (List SearchResult)
  listModelsResp : Except String (List ModelDescriptor)
  chatResp : Except String ChatResponse

/-- The observable outcome of a run: outbound calls in order, console print
events in order (each event is the exact string one `fmt` call writes), and
the error returned by `runRAGDemo` (`none` on success). -/
structure RunResult where
  calls : List Call
  output : List String
  err : Option String
deriving DecidableEq

/-- The display name passed to the store-create call. -/
def storeName : String := "my-rag-store"

/-- The fixed sample passage uploaded as `ai_concepts.txt` (the Go raw
string literal, including its literal tab lines). -/
def sampleContent : String :=
  "Artificial Intelligence (AI) is a branch of computer science that aims to create intelligent machines that work and react like humans. \n\t\nMachine Learning is a subset of AI that enables computers to learn and improve from experience without being explicitly programmed. \n\t\nDeep Learning is a subset of machine learning that uses neural networks with multiple layers to model and understand complex patterns in data.\n\nNatural Language Processing (NLP) is a field of AI that focuses on the interaction between computers and human language, enabling machines to understand, interpret, and generate human language.\n\nComputer Vision is another AI field that enables computers to interpret and understand visual information from the world, such as images and videos.\n\nThese technologies are transforming industries like healthcare, finance, transportation, and entertainment by automating tasks, improving decision-making, and creating new capabilities."

/-- The fixed query string. -/
def ragQuery : String := "What is machine learning and how does it relate to AI?"

/-- The fixed system instruction of the chat request. -/
def systemInstruction : String :=
  "You are a helpful AI assistant. Use the provided context to answer questions accurately and concisely."

/-- The numbered context block of the user message: one line per search
result, `fmt.Sprintf("%d. %s\n", i+1, result.Content)` for the i-th result. -/
def contextNumberedLines (results : List SearchResult) : String :=
  String.join (results.enum.map fun p => toString (p.1 + 1) ++ ". " ++ p.2.content ++ "\n")

/-- The user message of the chat request, as assembled by `contextBuilder`:
fixed header, the numbered result lines, then the literal query. -/
def buildPrompt (results : List SearchResult) : String :=
  "Based on the following information:\n\n" ++ contextNumberedLines results
    ++ "\nPlease answer the question: " ++ ragQuery

/-- The per-chunk print events of step 4's result loop: banner, content
line and score line for each result, in order. -/
def chunkPrints (results : List SearchResult) : List String :=
  (results.enum.map fun p =>
    ["\n--- Chunk " ++ toString (p.1 + 1) ++ " ---\n",
     "Content: " ++ p.2.content ++ "\n",
     "Score: " ++ p.2.score ++ "\n"]).flatten

/-- The model-selection loop: `llmModel` starts as the empty string, is set
to the identifier of the first descriptor whose type is "llm", and the loop
breaks there. -/
def selectLLM : List ModelDescriptor → String
  | [] => ""
  | m :: rest => if m.modelType == "llm" then m.identifier else selectLLM rest

/-- The value `message.AsAssistant().Content.OfString` of the first choice:
empty when there are no choices at all. -/
def assistantText (resp : ChatResponse) : String :=
  match resp.choices with
  | some (c :: _) => c.assistantContent
  | _ => ""

/-- All print events of a run that reaches the step-5 banner, in order
(everything `runRAGDemo` prints before the models call). -/
def printsThroughStep5 (vs : VectorStore) (f : UploadedFile)
    (results : List SearchResult) : List String :=
  ["=== Step 1: Creating Vector Store ===\n",
   "Created vector store: " ++ vs.name ++ " (ID: " ++ vs.id ++ ")\n",
   "\n=== Step 2: Uploading Sample File ===\n",
   "Uploaded file: " ++ f.filename ++ " (ID: " ++ f.id ++ ")\n",
   "\n=== Step 3: Attaching File to Vector Store ===\n",
   "File attached to vector store successfully\n",
   "Waiting for file processing to complete...\n",
   "\n=== Step 4: Running RAG Query ===\n",
   "Query: " ++ ragQuery ++ "\n",
   "\nFound " ++ toString results.length ++ " relevant chunks:\n"]
  ++ chunkPrints results
  ++ ["\n=== Step 5: Generating Enhanced Answer ===\n"]

/-- The pipeline of `runRAGDemo`, as a function of the service responses.
Each step appends its outbound call to the trace, prints what the Go code
prints, and on a failed response returns the wrapped error immediately. -/
def runRAGDemo (env : Env) : RunResult :=
  let out1 : List String := ["=== Step 1: Creating Vector Store ===\n"]
  match env.storeCreateResp with
  | .error e => ⟨[Call.storeCreate storeName], out1, some ("error creating vector store: " ++ e)⟩
  | .ok vs =>
    let out2 := out1 ++
      ["Created vector store: " ++ vs.name ++ " (ID: " ++ vs.id ++ ")\n",
       "\n=== Step 2: Uploading Sample File ===\n"]
    let calls2 := [Call.storeCreate storeName,
                   Call.fileUpload sampleContent "ai_concepts.txt" "text/plain" "assistants"]
    match env.fileUploadResp with
    | .error e => ⟨calls2, out2, some ("error uploading file: " ++ e)⟩
    | .ok f =>
      let out3 := out2 ++
        ["Uploaded file: " ++ f.filename ++ " (ID: " ++ f.id ++ ")\n",
         "\n=== Step 3: Attaching File to Vector Store ===\n"]
      let calls3 := calls2 ++ [Call.attachFile vs.id f.id]
      match env.attachResp with
      | .error e => ⟨calls3, out3, some ("error attaching file to vector store: " ++ e)⟩
      | .ok _ =>
        let out4 := out3 ++
          ["File attached to vector store successfully\n",
           "Waiting for file processing to complete...\n",
           "\n=== Step 4: Running RAG Query ===\n",
           "Query: " ++ ragQuery ++ "\n"]
        let calls4 := calls3 ++ [Call.search vs.id ragQuery 3]
        match env.searchResp with
        | .error e => ⟨calls4, out4, some ("error searching vector store: " ++ e)⟩
        | .ok results =>
          let out5 := out4
            ++ ["\nFound " ++ toString results.length ++ " relevant chunks:\n"]
            ++ chunkPrints results
            ++ ["\n=== Step 5: Generating Enhanced Answer ===\n"]
          let calls5 := calls4 ++ [Call.listModels]
          match env.listModelsResp with
          | .error e => ⟨calls5, out5, some ("error fetching models: " ++ e)⟩
          | .ok models =>
            let llmModel := selectLLM models
            if llmModel == "" then
              ⟨calls5, out5, some "no LLM model available for generation"⟩
            else
              let calls6 := calls5 ++
                [Call.chatCompletion systemInstruction (buildPrompt results) llmModel 300]
              match env.chatResp with
              | .error e => ⟨calls6, out5, some ("error generating answer: " ++ e)⟩
              | .ok resp =>
                if assistantText resp == "" then
                  ⟨calls6, out5, none⟩
                else
                  ⟨calls6, out5 ++ ["\nEnhanced Answer:\n" ++ assistantText resp ++ "\n"], none⟩

/-- Which pipeline step (1..6) a given outbound call belongs to. -/
def stepOfCall : Call → Nat
  | .storeCreate _ => 1
  | .fileUpload _ _ _ _ => 2
  | .attachFile _ _ => 3
  | .search _ _ _ => 4
  | .listModels => 5
  | .chatCompletion _ _ _ _ => 6

/-- Whether the response supplied for step k (1..6) is a success. -/
def stepOk (env : Env) : Nat → Bool
  | 1 => env.storeCreateResp.isOk
  | 2 => env.fileUploadResp.isOk
  | 3 => env.attachResp.isOk
  | 4 => env.searchResp.isOk
  | 5 => env.listModelsResp.isOk
  | 6 => env.chatResp.isOk
  | _ => true

/-- The fixed human-readable error tag of each step (1..6). -/
def stepErrTag : Nat → String
  | 1 => "error creating vector store"
  | 2 => "error uploading file"
  | 3 => "error attaching file to vector store"
  | 4 => "error searching vector store"
  | 5 => "error fetching models"
  | 6 => "error generating answer"
  | _ => ""

/-- The model list the environment returns (empty if the list call fails). -/
def modelsOf (env : Env) : List ModelDescriptor :=
  match env.listModelsResp with
  | .ok ms => ms
  | .error _ => []

/-- The spec-side description of the context block: exactly one numbered
line per content string, the line for the i-th entry (counting from `k`)
carrying that entry's content after its 1-based number. -/
def numberedFrom (k : Nat) : List String → List String
  | [] => []
  | c :: cs => (toString (k + 1) ++ ". " ++ c ++ "\n") :: numberedFrom (k + 1) cs

/-- Whether a call carries the fixed demo limits: a search call must ask
for at most 3 results and a chat call for at most 300 tokens; other calls
carry no limit. -/
def callLimitsOk : Call → Bool
  | .search _ _ n => n == 3
  | .chatCompletion _ _ _ t => t == 300
  | _ => true

/-- A fully successful environment: every call succeeds, the model list has
a non-"llm" entry followed by an "llm" entry, and the chat response carries
a non-empty assistant answer. -/
def envOkDemo : Env :=
  { storeCreateResp := Except.ok ⟨"vs_123", "my-rag-store"⟩
    fileUploadResp := Except.ok ⟨"file_456", "ai_concepts.txt"⟩
    attachResp := Except.ok ()
    searchResp := Except.ok
      [⟨"Machine Learning is a subset of AI.", "0.9123"⟩,
       ⟨"Deep Learning uses neural networks.", "0.8250"⟩]
    listModelsResp := Except.ok
      [⟨"embed-small", "embedding"⟩, ⟨"llama-3", "llm"⟩]
    chatResp := Except.ok ⟨some [⟨"Machine learning is a subset of AI."⟩]⟩ }

/-- An environment whose attach call (step 3) fails and whose earlier calls
succeed. -/
def envFailAttach : Env :=
  { storeCreateResp := Except.ok ⟨"vs_123", "my-rag-store"⟩
    fileUploadResp := Except.ok ⟨"file_456", "ai_concepts.txt"⟩
    attachResp := Except.error "connection reset"
    searchResp := Except.ok []
    listModelsResp := Except.ok []
    chatResp := Except.ok ⟨none⟩ }

/-- An environment whose first five calls succeed but whose model list has
no "llm"-typed entry. -/
def envNoLLM : Env :=
  { storeCreateResp := Except.ok ⟨"vs_123", "my-rag-store"⟩
    fileUploadResp := Except.ok ⟨"file_456", "ai_concepts.txt"⟩
    attachResp := Except.ok ()
    searchResp := Except.ok []
    listModelsResp := Except.ok [⟨"embed-small", "embedding"⟩]
    chatResp := Except.ok ⟨none⟩ }

/-- An environment whose first five calls succeed and whose first (and
only) "llm"-typed model descriptor carries an empty identifier. -/
def envEmptyIdLLM : Env :=
  { storeCreateResp := Except.ok ⟨"vs_123", "my-rag-store"⟩
    fileUploadResp := Except.ok ⟨"file_456", "ai_concepts.txt"⟩
    attachResp := Except.ok ()
    searchResp := Except.ok []
    listModelsResp := Except.ok [⟨"", "llm"⟩]
    chatResp := Except.ok ⟨none⟩ }

/-- Like `envOkDemo`, but the chat response's first choice carries empty
assistant text. -/
def envChatEmptyAnswer : Env :=
  { storeCreateResp := Except.ok ⟨"vs_123", "my-rag-store"⟩
    fileUploadResp := Except.ok ⟨"file_456", "ai_concepts.txt"⟩
    attachResp := Except.ok ()
    searchResp := Except.ok
      [⟨"Machine Learning is a subset of AI.", "0.9123"⟩]
    listModelsResp := Except.ok [⟨"llama-3", "llm"⟩]
    chatResp := Except.ok ⟨some [⟨""⟩]⟩ }

/-! ### Helper lemmas -/

/-- Unfolding lemma: the selection loop returns the identifier of the first
descriptor found with type "llm", or the empty string when there is none. -/
lemma selectLLM_eq_find (ms : List ModelDescriptor) :
    selectLLM ms =
      ((ms.find? fun m => m.modelType == "llm").map ModelDescriptor.identifier).getD "" := by
  induction ms with
  | nil => rfl
  | cons m rest ih =>
    cases h : m.modelType == "llm" <;>
      simp [selectLLM, List.find?_cons, h, ih]

lemma selectLLM_eq_empty_of_no_llm (ms : List ModelDescriptor)
    (h : ∀ m ∈ ms, m.modelType ≠ "llm") : selectLLM ms = "" := by
  induction ms with
  | nil => rfl
  | cons m rest ih =>
    have hm : m.modelType ≠ "llm" := h m (List.mem_cons_self m rest)
    have hb : (m.modelType == "llm") = false := beq_eq_false_iff_ne.mpr hm
    simp only [selectLLM, hb, if_neg]
    exact ih fun x hx => h x (List.mem_cons_of_mem m hx)

lemma numberedFrom_length (k : Nat) (cs : List String) :
    (numberedFrom k cs).length = cs.length := by
  induction cs generalizing k with
  | nil => rfl
  | cons c cs ih => simp [numberedFrom, ih]

lemma enumFrom_map_numbered (k : Nat) (rs : List SearchResult) :
    (rs.enumFrom k).map (fun p => toString (p.1 + 1) ++ ". " ++ p.2.content ++ "\n")
      = numberedFrom k (rs.map SearchResult.content) := by
  induction rs generalizing k with
  | nil => rfl
  | cons r rs ih => simp [List.enumFrom, numberedFrom, ih]

lemma contextNumberedLines_eq (results : List SearchResult) :
    contextNumberedLines results
      = String.join (numberedFrom 0 (results.map SearchResult.content)) := by
  unfold contextNumberedLines
  rw [List.enum, enumFrom_map_numbered]

lemma exists_error_of_isOk_false {α : Type} (x : Except String α)
    (h : x.isOk = false) : ∃ e, x = Except.error e := by
  cases x with
  | error e => exact ⟨e, rfl⟩
  | ok v => simp [Except.isOk, Except.toBool] at h

lemma exists_ok_of_isOk_true {α : Type} (x : Except String α)
    (h : x.isOk = true) : ∃ v, x = Except.ok v := by
  cases x with
  | error e => simp [Except.isOk, Except.toBool] at h
  | ok v => exact ⟨v, rfl⟩

lemma wrap_err (tag full e : String) (h : tag ++ ": " = full) :
    full ++ e = tag ++ (": " ++ e) := by
  rw [← String.append_assoc, h]

/-! ### Claim theorems -/

/-- Claim C1: in a run in which every external call succeeds and an "llm"
model is available, the pipeline issues exactly one call per step, in the
fixed order store-create, file-upload, attach, search, list-models,
chat-completion, and each call's inputs are the recorded outputs of the
earlier steps: the attach call receives the store id of step 1 and the
file id of step 2, and the search call receives the store id of step 1. -/
theorem success_run_calls (env : Env) (vs : VectorStore) (f : UploadedFile)
    (results : List SearchResult) (ms : List ModelDescriptor) (resp : ChatResponse)
    (h1 : env.storeCreateResp = Except.ok vs)
    (h2 : env.fileUploadResp = Except.ok f)
    (h3 : env.attachResp = Except.ok ())
    (h4 : env.searchResp = Except.ok results)
    (h5 : env.listModelsResp = Except.ok ms)
    (h6 : env.chatResp = Except.ok resp)
    (hllm : selectLLM ms ≠ "") :
    (runRAGDemo env).calls
      = [Call.storeCreate storeName,
         Call.fileUpload sampleContent "ai_concepts.txt" "text/plain" "assistants",
         Call.attachFile vs.id f.id,
         Call.search vs.id ragQuery 3,
         Call.listModels,
         Call.chatCompletion systemInstruction (buildPrompt results) (selectLLM ms) 300] := by
  have hb : (selectLLM ms == "") = false := beq_eq_false_iff_ne.mpr hllm
  simp only [runRAGDemo, h1, h2, h3, h4, h5, h6, hb]
  cases hr : assistantText resp == "" <;> simp

/-- Witness for C1 at the concrete all-success environment. -/
theorem success_run_calls_witness :
    (runRAGDemo envOkDemo).calls
      = [Call.storeCreate storeName,
         Call.fileUpload sampleContent "ai_concepts.txt" "text/plain" "assistants",
         Call.attachFile "vs_123" "file_456",
         Call.search "vs_123" ragQuery 3,
         Call.listModels,
         Call.chatCompletion systemInstruction
           (buildPrompt [⟨"Machine Learning is a subset of AI.", "0.9123"⟩,
                         ⟨"Deep Learning uses neural networks.", "0.8250"⟩])
           "llama-3" 300] :=
  success_run_calls envOkDemo ⟨"vs_123", "my-rag-store"⟩ ⟨"file_456", "ai_concepts.txt"⟩
    [⟨"Machine Learning is a subset of AI.", "0.9123"⟩,
     ⟨"Deep Learning uses neural networks.", "0.8250"⟩]
    [⟨"embed-small", "embedding"⟩, ⟨"llama-3", "llm"⟩]
    ⟨some [⟨"Machine learning is a subset of AI."⟩]⟩
    rfl rfl rfl rfl rfl rfl (by decide)

/-- Claim C2: for every step k in 1..6, if the calls before step k succeed
and the call of step k fails (for step 6, with an "llm" model selected so
that the chat call is actually issued), then the run makes exactly the
first k calls, no call beyond step k, and returns an error whose message
starts with that step's fixed prefix. -/
theorem failed_step_aborts (env : Env) (k : Nat) (hk1 : 1 ≤ k) (hk6 : k ≤ 6)
    (hbefore : ∀ j, 1 ≤ j → j < k → stepOk env j = true)
    (hfail : stepOk env k = false)
    (hllm : k = 6 → selectLLM (modelsOf env) ≠ "") :
    (runRAGDemo env).calls.length = k
    ∧ (∀ c ∈ (runRAGDemo env).calls, stepOfCall c ≤ k)
    ∧ ∃ s, (runRAGDemo env).err = some (stepErrTag k ++ s) := by
  interval_cases k
  · obtain ⟨e, h1⟩ := exists_error_of_isOk_false _ hfail
    refine ⟨by simp [runRAGDemo, h1], ?_, ⟨": " ++ e, ?_⟩⟩
    · have hcalls : (runRAGDemo env).calls = [Call.storeCreate storeName] := by
        simp [runRAGDemo, h1]
      intro c hc
      rw [hcalls] at hc
      fin_cases hc
      simp [stepOfCall]
    · have hrr : (runRAGDemo env).err = some ("error creating vector store: " ++ e) := by
        simp [runRAGDemo, h1]
      rw [hrr]
      exact congrArg some (wrap_err "error creating vector store" "error creating vector store: " e rfl)
  · obtain ⟨vs, h1⟩ := exists_ok_of_isOk_true _ (hbefore 1 (by norm_num) (by norm_num))
    obtain ⟨e, h2⟩ := exists_error_of_isOk_false _ hfail
    refine ⟨by simp [runRAGDemo, h1, h2], ?_, ⟨": " ++ e, ?_⟩⟩
    · have hcalls : (runRAGDemo env).calls
          = [Call.storeCreate storeName,
             Call.fileUpload sampleContent "ai_concepts.txt" "text/plain" "assistants"] := by
        simp [runRAGDemo, h1, h2]
      intro c hc
      rw [hcalls] at hc
      fin_cases hc <;> simp [stepOfCall]
    · have hrr : (runRAGDemo env).err = some ("error uploading file: " ++ e) := by
        simp [runRAGDemo, h1, h2]
      rw [hrr]
      exact congrArg some (wrap_err "error uploading file" "error uploading file: " e rfl)
  · obtain ⟨vs, h1⟩ := exists_ok_of_isOk_true _ (hbefore 1 (by norm_num) (by norm_num))
    obtain ⟨f, h2⟩ := exists_ok_of_isOk_true _ (hbefore 2 (by norm_num) (by norm_num))
    obtain ⟨e, h3⟩ := exists_error_of_isOk_false _ hfail
    refine ⟨by simp [runRAGDemo, h1, h2, h3], ?_, ⟨": " ++ e, ?_⟩⟩
    · have hcalls : (runRAGDemo env).calls
          = [Call.storeCreate storeName,
             Call.fileUpload sampleContent "ai_concepts.txt" "text/plain" "assistants",
             Call.attachFile vs.id f.id] := by
        simp [runRAGDemo, h1, h2, h3]
      intro c hc
      rw [hcalls] at hc
      fin_cases hc <;> simp [stepOfCall]
    · have hrr : (runRAGDemo env).err
          = some ("error attaching file to vector store: " ++ e) := by
        simp [runRAGDemo, h1, h2, h3]
      rw [hrr]
      exact congrArg some
        (wrap_err "error attaching file to vector store" "error attaching file to vector store: " e rfl)
  · obtain ⟨vs, h1⟩ := exists_ok_of_isOk_true _ (hbefore 1 (by norm_num) (by norm_num))
    obtain ⟨f, h2⟩ := exists_ok_of_isOk_true _ (hbefore 2 (by norm_num) (by norm_num))
    obtain ⟨u, h3⟩ := exists_ok_of_isOk_true _ (hbefore 3 (by norm_num) (by norm_num))
    obtain ⟨e, h4⟩ := exists_error_of_isOk_false _ hfail
    refine ⟨by simp [runRAGDemo, h1, h2, h3, h4], ?_, ⟨": " ++ e, ?_⟩⟩
    · have hcalls : (runRAGDemo env).calls
          = [Call.storeCreate storeName,
             Call.fileUpload sampleContent "ai_concepts.txt" "text/plain" "assistants",
             Call.attachFile vs.id f.id,
             Call.search vs.id ragQuery 3] := by
        simp [runRAGDemo, h1, h2, h3, h4]
      intro c hc
      rw [hcalls] at hc
      fin_cases hc <;> simp [stepOfCall]
    · have hrr : (runRAGDemo env).err = some ("error searching vector store: " ++ e) := by
        simp [runRAGDemo, h1, h2, h3, h4]
      rw [hrr]
      exact congrArg some
        (wrap_err "error searching vector store" "error searching vector store: " e rfl)
  · obtain ⟨vs, h1⟩ := exists_ok_of_isOk_true _ (hbefore 1 (by norm_num) (by norm_num))
    obtain ⟨f, h2⟩ := exists_ok_of_isOk_true _ (hbefore 2 (by norm_num) (by norm_num))
    obtain ⟨u, h3⟩ := exists_ok_of_isOk_true _ (hbefore 3 (by norm_num) (by norm_num))
    obtain ⟨results, h4⟩ := exists_ok_of_isOk_true _ (hbefore 4 (by norm_num) (by norm_num))
    obtain ⟨e, h5⟩ := exists_error_of_isOk_false _ hfail
    refine ⟨by simp [runRAGDemo, h1, h2, h3, h4, h5], ?_, ⟨": " ++ e, ?_⟩⟩
    · have hcalls : (runRAGDemo env).calls
          = [Call.storeCreate storeName,
             Call.fileUpload sampleContent "ai_concepts.txt" "text/plain" "assistants",
             Call.attachFile vs.id f.id,
             Call.search vs.id ragQuery 3,
             Call.listModels] := by
        simp [runRAGDemo, h1, h2, h3, h4, h5]
      intro c hc
      rw [hcalls] at hc
      fin_cases hc <;> simp [stepOfCall]
    · have hrr : (runRAGDemo env).err = some ("error fetching models: " ++ e) := by
        simp [runRAGDemo, h1, h2, h3, h4, h5]
      rw [hrr]
      exact congrArg some (wrap_err "error fetching models" "error fetching models: " e rfl)
  · obtain ⟨vs, h1⟩ := exists_ok_of_isOk_true _ (hbefore 1 (by norm_num) (by norm_num))
    obtain ⟨f, h2⟩ := exists_ok_of_isOk_true _ (hbefore 2 (by norm_num) (by norm_num))
    obtain ⟨u, h3⟩ := exists_ok_of_isOk_true _ (hbefore 3 (by norm_num) (by norm_num))
    obtain ⟨results, h4⟩ := exists_ok_of_isOk_true _ (hbefore 4 (by norm_num) (by norm_num))
    obtain ⟨ms, h5⟩ := exists_ok_of_isOk_true _ (hbefore 5 (by norm_num) (by norm_num))
    obtain ⟨e, h6⟩ := exists_error_of_isOk_false _ hfail
    have hms : modelsOf env = ms := by simp [modelsOf, h5]
    have hsel : (selectLLM ms == "") = false :=
      beq_eq_false_iff_ne.mpr (hms ▸ hllm rfl)
    refine ⟨by simp [runRAGDemo, h1, h2, h3, h4, h5, hsel, h6], ?_, ⟨": " ++ e, ?_⟩⟩
    · have hcalls : (runRAGDemo env).calls
          = [Call.storeCreate storeName,
             Call.fileUpload sampleContent "ai_concepts.txt" "text/plain" "assistants",
             Call.attachFile vs.id f.id,
             Call.search vs.id ragQuery 3,
             Call.listModels,
             Call.chatCompletion systemInstruction (buildPrompt results) (selectLLM ms) 300] := by
        simp [runRAGDemo, h1, h2, h3, h4, h5, hsel, h6]
      intro c hc
      rw [hcalls] at hc
      fin_cases hc <;> simp [stepOfCall]
    · have hrr : (runRAGDemo env).err = some ("error generating answer: " ++ e) := by
        simp [runRAGDemo, h1, h2, h3, h4, h5, hsel, h6]
      rw [hrr]
      exact congrArg some (wrap_err "error generating answer" "error generating answer: " e rfl)

/-- Witness for C2: the attach call fails at step 3 of `envFailAttach`. -/
theorem failed_step_aborts_witness :
    (runRAGDemo envFailAttach).calls.length = 3
    ∧ (∀ c ∈ (runRAGDemo envFailAttach).calls, stepOfCall c ≤ 3)
    ∧ ∃ s, (runRAGDemo envFailAttach).err = some (stepErrTag 3 ++ s) :=
  failed_step_aborts envFailAttach 3 (by norm_num) (by norm_num)
    (by intro j hj1 hj2; interval_cases j <;> rfl)
    rfl
    (by intro h; exact absurd h (by norm_num))

/-- Claim C3: for every search result set of N entries, the user-message
prompt of step 5 is the fixed header, then exactly N numbered lines (line
i carrying the content of the i-th result in returned order), then the
literal query text; `numberedFrom` renders the spec's numbered lines. -/
theorem prompt_is_header_numbered_lines_query (results : List SearchResult) :
    buildPrompt results
      = "Based on the following information:\n\n"
          ++ String.join (numberedFrom 0 (results.map SearchResult.content))
          ++ "\nPlease answer the question: " ++ ragQuery
    ∧ (numberedFrom 0 (results.map SearchResult.content)).length = results.length := by
  constructor
  · unfold buildPrompt
    rw [contextNumberedLines_eq]
  · rw [numberedFrom_length, List.length_map]

/-- Claim C4: the model identifier selected for chat completion is that of
the first listed descriptor whose declared type is "llm" (empty sentinel
when there is none); in particular, with a non-"llm" entry followed by an
"llm" entry, the second entry's identifier is selected. -/
theorem llm_selected_is_first_llm_entry :
    (∀ ms : List ModelDescriptor,
       selectLLM ms
         = ((ms.find? fun m => m.modelType == "llm").map ModelDescriptor.identifier).getD "")
    ∧ selectLLM [⟨"embed-small", "embedding"⟩, ⟨"llama-3", "llm"⟩] = "llama-3" :=
  ⟨selectLLM_eq_find, by decide⟩

/-- Claim C5: if the first five calls succeed and the returned model list
has no entry of type "llm", the run fails with the "no LLM model available"
error and never issues the chat-completion call (no step-6 call). -/
theorem no_llm_model_aborts (env : Env) (vs : VectorStore) (f : UploadedFile)
    (results : List SearchResult) (ms : List ModelDescriptor)
    (h1 : env.storeCreateResp = Except.ok vs)
    (h2 : env.fileUploadResp = Except.ok f)
    (h3 : env.attachResp = Except.ok ())
    (h4 : env.searchResp = Except.ok results)
    (h5 : env.listModelsResp = Except.ok ms)
    (hno : ∀ m ∈ ms, m.modelType ≠ "llm") :
    (runRAGDemo env).err = some "no LLM model available for generation"
    ∧ ∀ c ∈ (runRAGDemo env).calls, stepOfCall c ≠ 6 := by
  have hsel : selectLLM ms = "" := selectLLM_eq_empty_of_no_llm ms hno
  simp only [runRAGDemo, h1, h2, h3, h4, h5, hsel, beq_self_eq_true, reduceIte]
  refine ⟨trivial, ?_⟩
  intro c hc
  fin_cases hc <;> simp [stepOfCall]

/-- Witness for C5 at an environment whose model list has only an
embedding-typed entry. -/
theorem no_llm_model_aborts_witness :
    (runRAGDemo envNoLLM).err = some "no LLM model available for generation"
    ∧ ∀ c ∈ (runRAGDemo envNoLLM).calls, stepOfCall c ≠ 6 :=
  no_llm_model_aborts envNoLLM ⟨"vs_123", "my-rag-store"⟩ ⟨"file_456", "ai_concepts.txt"⟩
    [] [⟨"embed-small", "embedding"⟩] rfl rfl rfl rfl rfl (by decide)

/-- Claim C6: in an all-success run, the "Enhanced Answer" print event
appears exactly when the first chat choice's assistant text is present and
non-empty; when it is absent or empty, nothing extra is printed and the
run still returns success (`err = none`). -/
theorem answer_printed_iff_nonempty (env : Env) (vs : VectorStore) (f : UploadedFile)
    (results : List SearchResult) (ms : List ModelDescriptor) (resp : ChatResponse)
    (h1 : env.storeCreateResp = Except.ok vs)
    (h2 : env.fileUploadResp = Except.ok f)
    (h3 : env.attachResp = Except.ok ())
    (h4 : env.searchResp = Except.ok results)
    (h5 : env.listModelsResp = Except.ok ms)
    (h6 : env.chatResp = Except.ok resp)
    (hllm : selectLLM ms ≠ "") :
    (runRAGDemo env).err = none
    ∧ (runRAGDemo env).output
        = printsThroughStep5 vs f results
          ++ (if assistantText resp == ""
              then []
              else ["\nEnhanced Answer:\n" ++ assistantText resp ++ "\n"]) := by
  have hb : (selectLLM ms == "") = false := beq_eq_false_iff_ne.mpr hllm
  simp only [runRAGDemo, h1, h2, h3, h4, h5, h6, hb]
  cases hr : assistantText resp == "" <;>
    simp [hr, printsThroughStep5, List.append_assoc]

/-- Witness for C6 at an environment whose chat response's first choice has
empty assistant text: no answer event, and the run succeeds. -/
theorem answer_printed_iff_nonempty_witness :
    (runRAGDemo envChatEmptyAnswer).err = none
    ∧ (runRAGDemo envChatEmptyAnswer).output
        = printsThroughStep5 ⟨"vs_123", "my-rag-store"⟩ ⟨"file_456", "ai_concepts.txt"⟩
            [⟨"Machine Learning is a subset of AI.", "0.9123"⟩]
          ++ (if assistantText ⟨some [⟨""⟩]⟩ == ""
              then []
              else ["\nEnhanced Answer:\n" ++ assistantText ⟨some [⟨""⟩]⟩ ++ "\n"]) :=
  answer_printed_iff_nonempty envChatEmptyAnswer
    ⟨"vs_123", "my-rag-store"⟩ ⟨"file_456", "ai_concepts.txt"⟩
    [⟨"Machine Learning is a subset of AI.", "0.9123"⟩]
    [⟨"llama-3", "llm"⟩] ⟨some [⟨""⟩]⟩
    rfl rfl rfl rfl rfl rfl (by decide)

/-- Claim C7: once the attach call has succeeded, the next outbound call is
the search call: the first four calls of any such run are exactly
store-create, file-upload, attach, search, with no status polling or any
other call in between. -/
theorem search_immediately_after_attach (env : Env) (vs : VectorStore) (f : UploadedFile)
    (h1 : env.storeCreateResp = Except.ok vs)
    (h2 : env.fileUploadResp = Except.ok f)
    (h3 : env.attachResp = Except.ok ()) :
    (runRAGDemo env).calls.take 4
      = [Call.storeCreate storeName,
         Call.fileUpload sampleContent "ai_concepts.txt" "text/plain" "assistants",
         Call.attachFile vs.id f.id,
         Call.search vs.id ragQuery 3] := by
  rcases hs4 : env.searchResp with e4 | results
  · simp [runRAGDemo, h1, h2, h3, hs4]
  rcases hs5 : env.listModelsResp with e5 | ms
  · simp [runRAGDemo, h1, h2, h3, hs4, hs5]
  cases hsel : selectLLM ms == ""
  · rcases hs6 : env.chatResp with e6 | resp
    · simp [runRAGDemo, h1, h2, h3, hs4, hs5, hsel, hs6]
    cases hr : assistantText resp == "" <;>
      simp [runRAGDemo, h1, h2, h3, hs4, hs5, hsel, hs6, hr]
  · simp [runRAGDemo, h1, h2, h3, hs4, hs5, hsel]

/-- Witness for C7 at the all-success environment. -/
theorem search_immediately_after_attach_witness :
    (runRAGDemo envOkDemo).calls.take 4
      = [Call.storeCreate storeName,
         Call.fileUpload sampleContent "ai_concepts.txt" "text/plain" "assistants",
         Call.attachFile "vs_123" "file_456",
         Call.search "vs_123" ragQuery 3] :=
  search_immediately_after_attach envOkDemo
    ⟨"vs_123", "my-rag-store"⟩ ⟨"file_456", "ai_concepts.txt"⟩ rfl rfl rfl

/-- Claim C8: in every run, every issued search call asks for at most 3
results and every issued chat-completion call carries max-tokens 300. -/
theorem search_top3_and_maxtokens_300 (env : Env) :
    ((runRAGDemo env).calls.all callLimitsOk) = true := by
  rcases hs1 : env.storeCreateResp with e1 | vs
  · simp [runRAGDemo, hs1, callLimitsOk]
  rcases hs2 : env.fileUploadResp with e2 | f
  · simp [runRAGDemo, hs1, hs2, callLimitsOk]
  rcases hs3 : env.attachResp with e3 | u
  · simp [runRAGDemo, hs1, hs2, hs3, callLimitsOk]
  rcases hs4 : env.searchResp with e4 | results
  · simp [runRAGDemo, hs1, hs2, hs3, hs4, callLimitsOk]
  rcases hs5 : env.listModelsResp with e5 | ms
  · simp [runRAGDemo, hs1, hs2, hs3, hs4, hs5, callLimitsOk]
  cases hsel : selectLLM ms == ""
  · rcases hs6 : env.chatResp with e6 | resp
    · simp [runRAGDemo, hs1, hs2, hs3, hs4, hs5, hsel, hs6, callLimitsOk]
    cases hr : assistantText resp == "" <;>
      simp [runRAGDemo, hs1, hs2, hs3, hs4, hs5, hsel, hs6, hr, callLimitsOk]
  · simp [runRAGDemo, hs1, hs2, hs3, hs4, hs5, hsel, callLimitsOk]

/-- Claim C9: if the first "llm"-typed entry of the model list carries an
empty identifier, the selection loop stops with the empty sentinel, so the
run reports the no-LLM-available error and never issues the chat call,
even though an "llm"-typed model was present. -/
theorem empty_identifier_llm_aborts (env : Env) (vs : VectorStore) (f : UploadedFile)
    (results : List SearchResult) (ms : List ModelDescriptor) (m : ModelDescriptor)
    (h1 : env.storeCreateResp = Except.ok vs)
    (h2 : env.fileUploadResp = Except.ok f)
    (h3 : env.attachResp = Except.ok ())
    (h4 : env.searchResp = Except.ok results)
    (h5 : env.listModelsResp = Except.ok ms)
    (hfind : (ms.find? fun x => x.modelType == "llm") = some m)
    (hid : m.identifier = "") :
    (runRAGDemo env).err = some "no LLM model available for generation"
    ∧ ∀ c ∈ (runRAGDemo env).calls, stepOfCall c ≠ 6 := by
  have hsel : selectLLM ms = "" := by
    rw [selectLLM_eq_find, hfind]
    simp [hid]
  simp only [runRAGDemo, h1, h2, h3, h4, h5, hsel, beq_self_eq_true, reduceIte]
  refine ⟨trivial, ?_⟩
  intro c hc
  fin_cases hc <;> simp [stepOfCall]

/-- Witness for C9 at an environment whose only model is "llm"-typed with
an empty identifier. -/
theorem empty_identifier_llm_aborts_witness :
    (runRAGDemo envEmptyIdLLM).err = some "no LLM model available for generation"
    ∧ ∀ c ∈ (runRAGDemo envEmptyIdLLM).calls, stepOfCall c ≠ 6 :=
  empty_identifier_llm_aborts envEmptyIdLLM
    ⟨"vs_123", "my-rag-store"⟩ ⟨"file_456", "ai_concepts.txt"⟩
    [] [⟨"", "llm"⟩] ⟨"", "llm"⟩ rfl rfl rfl rfl rfl (by decide) rfl

/-- Claim C10: the pipeline is a deterministic function of the service
responses: two runs receiving identical responses at every step produce
identical call traces, identical console output and identical returned
errors. -/
theorem run_deterministic_in_responses (e1 e2 : Env) (h : e1 = e2) :
    (runRAGDemo e1).calls = (runRAGDemo e2).calls
    ∧ (runRAGDemo e1).output = (runRAGDemo e2).output
    ∧ (runRAGDemo e1).err = (runRAGDemo e2).err := by
  subst h
  exact ⟨rfl, rfl, rfl⟩

/-- Witness for C10 at a concrete environment. -/
theorem run_deterministic_in_responses_witness :
    (runRAGDemo envOkDemo).calls = (runRAGDemo envOkDemo).calls
    ∧ (runRAGDemo envOkDemo).output = (runRAGDemo envOkDemo).output
    ∧ (runRAGDemo envOkDemo).err = (runRAGDemo envOkDemo).err :=
  run_deterministic_in_responses envOkDemo envOkDemo rfl
